import Mathlib

/-!
Verification development for the streaming-runner manager package.

We give a shallow embedding of the manager's code paths: URL handling
(`net/url` as used by the code), the remote-runtime RPC calls with their
correlation-id checks, feature resolution (`getFeature`,
`getFeatureDefinitions`), the per-message execution pipeline (`handle` and
its bounded retry loop), the consumer loop's ack/nack step, and the
source-controller transitions (`Add`, `Update`).

Remote collaborators (metadata store, runtime service, broker) are modelled
as oracles: functions from the observable request data (call index, request
uuid, payload) to a reply. Correlation ids (`uuid.New().String()`) are
modelled as naturals drawn from a counter; the only operation the code
performs on them is equality comparison. Go `panic` (nil-pointer
dereference) is modelled as a distinguished outcome constructor.
-/

namespace StreamingRunner

/-! ## URLs (the fields of `net/url.URL` the code reads and writes) -/

structure URL where
  scheme : String
  host : String
  path : String
  fragment : String
  deriving Repr, DecidableEq

/-- Serialization of a URL, modelling `url.URL.String()` on the fields the
code uses. -/
def URL.toString (u : URL) : String :=
  (if u.scheme = "" then "" else u.scheme ++ "://" ++ u.host) ++ u.path ++
    (if u.fragment = "" then "" else "#" ++ u.fragment)

/-- Find the first occurrence of `sep` in a character list, returning the
part before it and the part after it. Structural, so it reduces in the
kernel (unlike `String.splitOn`). -/
def splitFirst (sep : List Char) : List Char → Option (List Char × List Char)
  | [] => if sep = [] then some ([], []) else none
  | c :: cs =>
    if sep.isPrefixOf (c :: cs) then some ([], (c :: cs).drop sep.length)
    else
      match splitFirst sep cs with
      | none => none
      | some (pre, post) => some (c :: pre, post)

/-- Split a character list at every occurrence of `ch` (like
`strings.Split` for a one-character separator). -/
def splitEvery (ch : Char) : List Char → List (List Char)
  | [] => [[]]
  | c :: cs =>
    if c = ch then [] :: splitEvery ch cs
    else
      match splitEvery ch cs with
      | [] => [[c]]
      | h :: t => (c :: h) :: t

/-- Split a string at its first `#`, returning the part before and the
fragment after. -/
def splitFragment (s : String) : String × String :=
  match splitFirst ['#'] s.data with
  | none => (s, "")
  | some (pre, post) => (String.mk pre, String.mk post)

/-- Model of `url.Parse` on the shapes the code distinguishes: a string
with a `scheme://host` head parses into scheme, host, path and fragment;
anything else parses with empty scheme and host (as `url.Parse` yields for
bare fragments and relative references). -/
def parseURL (s : String) : Option URL :=
  let (pre, frag) := splitFragment s
  match splitFirst [':', '/', '/'] pre.data with
  | none => some { scheme := "", host := "", path := pre, fragment := frag }
  | some (schemeChars, hostPath) =>
    match splitFirst ['/'] hostPath with
    | none => some { scheme := String.mk schemeChars, host := String.mk hostPath,
                     path := "", fragment := frag }
    | some (hostChars, rest) =>
      some { scheme := String.mk schemeChars, host := String.mk hostChars,
             path := String.mk ('/' :: rest), fragment := frag }

/-! ## Query strings (`url.Values` as used by `handle`) -/

/-- Model of `url.URL.Query()`'s parse of a raw query string into key/value
pairs: split on `&`, then each pair at its first `=`. -/
def parseQuery (s : String) : List (String × String) :=
  if s = "" then []
  else (splitEvery '&' s.data).map (fun kv =>
    match splitFirst ['='] kv with
    | none => (String.mk kv, "")
    | some (k, v) => (String.mk k, String.mk v))

/-- Join strings with a separator (structural `strings.Join`). -/
def joinSep (sep : String) : List String → String
  | [] => ""
  | [x] => x
  | x :: xs => x ++ sep ++ joinSep sep xs

/-- Model of `url.Values.Encode()`. -/
def encodeQuery (vs : List (String × String)) : String :=
  joinSep "&" (vs.map (fun kv => kv.1 ++ "=" ++ kv.2))

/-! ## Manager-side state: uuid counter and RPC call counters -/

structure MState where
  nextUuid : Nat
  schemaCalls : Nat
  programCalls : Nat
  execCalls : Nat
  deriving Repr, DecidableEq

def st0 : MState := { nextUuid := 0, schemaCalls := 0, programCalls := 0, execCalls := 0 }

/-- `newUUID()`: a fresh correlation id. -/
def newUUID (s : MState) : Nat × MState :=
  (s.nextUuid, { s with nextUuid := s.nextUuid + 1 })

/-! ## Errors -/

inductive GoError where
  | fetchFailed
  | unmarshalFailed
  | unsupportedKind (kind : String)
  | schemaRegFailed
  | schemaRegUnexpectedUuid
  | programRegFailed
  | programRegUnexpectedUuid
  | execFailedNotFound
  | execFailedOther
  | execUnexpectedUuid
  deriving Repr, DecidableEq

/-- The correlation-id-mismatch errors: the protocol-violation class. -/
def GoError.isProtocolViolation : GoError → Bool
  | .schemaRegUnexpectedUuid => true
  | .programRegUnexpectedUuid => true
  | .execUnexpectedUuid => true
  | _ => false

/-! ## Remote runtime oracle -/

inductive SchemaReply where
  | reply (respUuid : Nat)
  | err
  deriving Repr, DecidableEq

inductive ProgramReply where
  | reply (respUuid : Nat) (sha : String)
  | err
  deriving Repr, DecidableEq

inductive ExecReply where
  | ok (respUuid : Nat)
  | notFound
  | errOther
  deriving Repr, DecidableEq

/-- The remote runtime, as an oracle: each RPC's reply is a function of the
call index (per RPC kind), the request's correlation id, and the request
payload. -/
structure Runtime where
  registerSchemaReply : Nat → Nat → String → SchemaReply
  loadProgramReply : Nat → Nat → String → ProgramReply
  executeReply : Nat → Nat → String → ExecReply

/-- `(m *manager) registerSchema`: fresh uuid, RPC, then the correlation-id
check `resp.GetUuid() != uuid`. -/
def registerSchema (rt : Runtime) (s : MState) (schema : String) :
    Except GoError Unit × MState :=
  let (u, s) := newUUID s
  let idx := s.schemaCalls
  let s := { s with schemaCalls := s.schemaCalls + 1 }
  match rt.registerSchemaReply idx u schema with
  | .err => (.error .schemaRegFailed, s)
  | .reply r => if r ≠ u then (.error .schemaRegUnexpectedUuid, s) else (.ok (), s)

/-! ## Features -/

structure Feature where
  kind : String
  fqn : String
  schema : String
  expression : String
  programSha1 : String
  deriving Repr, DecidableEq

/-- `(m *manager) registerProgram`: fresh uuid, RPC, correlation-id check,
then caching of the returned fingerprint on the feature
(`ft.programSha1 = resp.GetProgramSha1()`). -/
def registerProgram (rt : Runtime) (s : MState) (ft : Feature) :
    Except GoError Feature × MState :=
  let (u, s) := newUUID s
  let idx := s.programCalls
  let s := { s with programCalls := s.programCalls + 1 }
  match rt.loadProgramReply idx u ft.expression with
  | .err => (.error .programRegFailed, s)
  | .reply r sha =>
    if r ≠ u then (.error .programRegUnexpectedUuid, s)
    else (.ok { ft with programSha1 := sha }, s)

/-! ## Feature resolution (`getFeature`, `getFeatureDefinitions`) -/

structure ResourceReference where
  name : String
  namespc : String
  deriving Repr, DecidableEq

/-- What the metadata store returns for a feature reference: the builder
blob (decodable into kind/schema/expression, or not) and the spec's FQN. -/
inductive BuilderRaw where
  | decodable (kind schema expression : String)
  | garbage
  deriving Repr, DecidableEq

structure FeatureSpecObj where
  builder : BuilderRaw
  fqn : String
  deriving Repr, DecidableEq

inductive ResolveResult where
  | panicNilSchema
  | err (e : GoError)
  | ok (resolved : String)
  deriving Repr, DecidableEq

/-- The schema-resolution portion of `getFeature` (the `if ft.Schema != ""`
ladder). `bsSchema` is `bs.Schema` (`*url.URL`, so an `Option`); reading a
field of it while it is `none` is Go's nil-pointer dereference, modelled as
`panicNilSchema`. -/
def resolveFtSchema (rt : Runtime) (bsSchema : Option URL) (ftSchema : String)
    (s : MState) : ResolveResult × MState :=
  if ftSchema ≠ "" then
    match parseURL ftSchema with
    | some u =>
      if u.scheme ≠ "" ∧ u.host ≠ "" ∧ u.fragment ≠ "" then
        match bsSchema with
        | none => (.panicNilSchema, s)
        | some b =>
          if ¬(u.scheme = b.scheme ∧ u.host = b.host) then
            match registerSchema rt s ftSchema with
            | (.error e, s) => (.err e, s)
            | (.ok _, s) => (.ok ftSchema, s)
          else (.ok ftSchema, s)
      else
        match bsSchema with
        | none => (.panicNilSchema, s)
        | some b => (.ok (URL.toString { b with fragment := ftSchema }), s)
    | none =>
      match bsSchema with
      | none => (.panicNilSchema, s)
      | some b => (.ok (URL.toString { b with fragment := ftSchema }), s)
  else
    match bsSchema with
    | none => (.panicNilSchema, s)
    | some b => (.ok b.toString, s)

/-- Result of `getFeature`: either a Go panic, or the returned
`(ft *Feature, err error)` pair — both components, since the code can
return a non-nil feature together with a non-nil error. -/
inductive GetFeatureResult where
  | panicNilSchema
  | ret (ft : Option Feature) (err : Option GoError)
  deriving Repr, DecidableEq

/-- `(m *manager) getFeature`: fetch the spec, unmarshal the builder blob,
check the kind, resolve the schema, then `return ft, m.registerProgram(ctx, ft)`
(so on a program-registration failure the non-nil feature is still
returned, alongside the error). -/
def getFeature (store : ResourceReference → Option FeatureSpecObj) (rt : Runtime)
    (ref : ResourceReference) (bsSchema : Option URL) (s : MState) :
    GetFeatureResult × MState :=
  match store ref with
  | none => (.ret none (some .fetchFailed), s)
  | some spec =>
    match spec.builder with
    | .garbage => (.ret none (some .unmarshalFailed), s)
    | .decodable kind schemaStr expr =>
      if kind ≠ "streaming" then (.ret none (some (.unsupportedKind kind)), s)
      else
        match resolveFtSchema rt bsSchema schemaStr s with
        | (.panicNilSchema, s) => (.panicNilSchema, s)
        | (.err e, s) => (.ret none (some e), s)
        | (.ok resolved, s) =>
          let ft : Feature := { kind := kind, fqn := spec.fqn, schema := resolved,
                                expression := expr, programSha1 := "" }
          match registerProgram rt s ft with
          | (.error e, s) => (.ret (some ft) (some e), s)
          | (.ok ft, s) => (.ret (some ft) none, s)

/-- `(m *manager) getFeatureDefinitions`: iterate the source's feature
references, defaulting the namespace, and append the returned feature
pointer to the slice on every iteration — including when `getFeature`
returned an error (the code logs the error but has no skip). The outer
`Option` is `none` when an iteration panicked. -/
def getFeatureDefinitions (store : ResourceReference → Option FeatureSpecObj)
    (rt : Runtime) (refs : List ResourceReference) (inNamespc : String)
    (bsSchema : Option URL) (s : MState) :
    Option (List (Option Feature)) × MState :=
  match refs with
  | [] => (some [], s)
  | ref :: rest =>
    let ref := if ref.namespc = "" then { ref with namespc := inNamespc } else ref
    match getFeature store rt ref bsSchema s with
    | (.panicNilSchema, s) => (none, s)
    | (.ret ft _err, s) =>
      match getFeatureDefinitions store rt rest inNamespc bsSchema s with
      | (none, s) => (none, s)
      | (some fts, s) => (some (ft :: fts), s)

/-! ## The execution pipeline (`handle`) -/

structure Metadata where
  id : String
  timestamp : Nat
  topic : String
  deriving Repr, DecidableEq

structure Message where
  body : String
  metadata : List (String × String)
  nackable : Bool
  deriving Repr, DecidableEq

/-- The `headers` extension built by `handle`: for each metadata pair the
code calls `u.Query().Add(k, v)` — `Query()` parses `u.RawQuery` into a
fresh `url.Values` each time, so the `Add` mutates a copy that is dropped —
then sets `u.RawQuery = u.Query().Encode()`. -/
def encodeHeaders (metadata : List (String × String)) : String :=
  let rawQuery := metadata.foldl (fun rq kv =>
    let q := parseQuery rq
    let _ := (kv.1, kv.2) :: q
    rq) ""
  encodeQuery (parseQuery rawQuery)

/-- The `content-type` scan in the same loop. -/
def extractContentType (metadata : List (String × String)) : String :=
  metadata.foldl (fun ct kv => if kv.1.toLower = "content-type" then kv.2 else ct) ""

/-- The normalized event envelope (`cloudevents.NewEvent()` plus the
setters `handle` applies). -/
structure Event where
  id : String
  source : String
  time : Nat
  dataSchema : String
  subject : String
  headersExt : String
  contentType : String
  body : String
  deriving Repr, DecidableEq

def buildEvent (src : String) (md : Metadata) (msg : Message) (schema : String) : Event :=
  { id := md.id, source := src, time := md.timestamp, dataSchema := schema,
    subject := md.topic, headersExt := encodeHeaders msg.metadata,
    contentType := extractContentType msg.metadata, body := msg.body }

/-- The `goto exec` retry loop of `handle`. `reqUuid` and `reqSha` are the
request fields fixed when `req` was built (the Go code never rebuilds `req`,
so the sha sent on a retry is the one from before re-registration).
`triesLeft` encodes the Go counter as `3 - tries` (`tries` starts at 1 and
the loop re-enters while `tries < 3`): on a NotFound reply the program is
re-registered and, if any tries are left, the call is re-issued; otherwise
the original execution error is returned. On a reply the correlation id
must match (`resp.GetUuid() != req.GetUuid()`). -/
def execLoop (rt : Runtime) (reqUuid : Nat) (reqSha : String) (ft : Feature)
    (triesLeft : Nat) (s : MState) : Except GoError Feature × MState :=
  let idx := s.execCalls
  let s := { s with execCalls := s.execCalls + 1 }
  match rt.executeReply idx reqUuid reqSha with
  | .notFound =>
    match registerProgram rt s ft with
    | (.error e, s) => (.error e, s)
    | (.ok ft, s) =>
      match triesLeft with
      | 0 => (.error .execFailedNotFound, s)
      | n + 1 => execLoop rt reqUuid reqSha ft n s
  | .errOther => (.error .execFailedOther, s)
  | .ok r =>
    if r ≠ reqUuid then (.error .execUnexpectedUuid, s) else (.ok ft, s)

inductive HRes where
  | panicNilFeature
  | ok
  | err (e : GoError)
  deriving Repr, DecidableEq

/-- `(m *manager) handle`: iterate `bs.features` sequentially; each entry is
a `*Feature` and may be nil (dereferencing it panics). Per feature: build
the envelope, build the request with a fresh uuid and the cached
fingerprint, then run the retry loop; any error aborts the whole message. -/
def handleList (rt : Runtime) (src : String) (msg : Message) (md : Metadata)
    (features : List (Option Feature)) (s : MState) : HRes × MState :=
  match features with
  | [] => (.ok, s)
  | none :: _ => (.panicNilFeature, s)
  | some ft :: rest =>
    let _ev := buildEvent src md msg ft.schema
    let (u, s) := newUUID s
    match execLoop rt u ft.programSha1 ft 2 s with
    | (.error e, s) => (.err e, s)
    | (.ok _, s) => handleList rt src msg md rest s

/-! ## The consumer loop body (`subscribe`'s worker iteration) -/

structure AckRecord where
  nacked : Bool
  acked : Bool
  deriving Repr, DecidableEq

/-- What one worker iteration does to a received message after `handle`
returns: `if err != nil { if msg.Nackable() { msg.Nack() }; log }` and then
— unconditionally — `msg.Ack()`. A panic inside `handle` kills the
goroutine before any ack (`none`). -/
def consumeOne (hres : HRes) (nackable : Bool) : Option AckRecord :=
  match hres with
  | .panicNilFeature => none
  | .err _ => some { nacked := nackable, acked := true }
  | .ok => some { nacked := false, acked := true }

/-- One full worker-loop iteration on a received message: run `handle`,
then ack/nack per `consumeOne`. -/
def processMessage (rt : Runtime) (src : String) (msg : Message) (md : Metadata)
    (features : List (Option Feature)) (s : MState) : Option AckRecord × MState :=
  let (h, s) := handleList rt src msg md features s
  (consumeOne h msg.nackable, s)

/-! ## The source controller (`Add`, `Update`) -/

structure DataSource where
  kind : String
  namespc : String
  name : String
  featureRefs : List ResourceReference
  deriving Repr, DecidableEq

structure BaseStreaming where
  brokerKind : String
  workers : Nat
  schema : Option URL
  features : List (Option Feature)
  deriving Repr, DecidableEq

structure ManagerState where
  ready : Bool
  hasCancel : Bool
  bs : Option BaseStreaming
  deriving Repr, DecidableEq

inductive MEvent where
  | cancelPrior
  | registerSchemaCall
  | subscribeCall
  | spawnWorkers (n : Nat)
  deriving Repr, DecidableEq

structure AddResult where
  state : Option ManagerState
  trace : List MEvent
  s : MState
  deriving Repr, DecidableEq

/-- The collaborators `Add` consults: config unmarshalling (the parsed
broker kind, worker count and optional schema URL, or `none` on an
unmarshal error), the broker registry lookup, the subscribe outcome, the
metadata store and the runtime. -/
structure AddEnv where
  unmarshalResult : Option (String × Nat × Option URL)
  brokerExists : String → Bool
  subscribeOk : Bool
  store : ResourceReference → Option FeatureSpecObj
  rt : Runtime

/-- `(m *manager) Add`: set `ready = false`; reject a non-"streaming" kind;
unmarshal the config (worker count defaulting to 1 when 0); register the
source schema when present (failure aborts); look up the broker (unknown
kind aborts); install the new cancel scope; `Subscribe` (failure aborts,
with the cancel already installed); resolve features; spawn the workers;
only then `ready = true` and publish `bs`. The trace records the externally
visible construction events; `state = none` models a Go panic. -/
def Add (env : AddEnv) (ms : ManagerState) (input : DataSource) (s : MState) : AddResult :=
  let ms := { ms with ready := false }
  if input.kind ≠ "streaming" then ⟨some ms, [], s⟩
  else
    match env.unmarshalResult with
    | none => ⟨some ms, [], s⟩
    | some (brokerKind, workers0, schema) =>
      let workers := if workers0 = 0 then 1 else workers0
      let (schemaRegFailed, s, tr1) :=
        match schema with
        | none => (false, s, ([] : List MEvent))
        | some u =>
          match registerSchema env.rt s u.toString with
          | (.error _, s) => (true, s, [MEvent.registerSchemaCall])
          | (.ok _, s) => (false, s, [MEvent.registerSchemaCall])
      if schemaRegFailed then ⟨some ms, tr1, s⟩
      else if ¬ env.brokerExists brokerKind then ⟨some ms, tr1, s⟩
      else
        let ms := { ms with hasCancel := true }
        let tr := tr1 ++ [MEvent.subscribeCall]
        if ¬ env.subscribeOk then ⟨some ms, tr, s⟩
        else
          match getFeatureDefinitions env.store env.rt input.featureRefs
              input.namespc schema s with
          | (none, s) => ⟨none, tr, s⟩
          | (some fts, s) =>
            let bs : BaseStreaming :=
              { brokerKind := brokerKind, workers := workers, schema := schema,
                features := fts }
            let tr := tr ++ [MEvent.spawnWorkers workers]
            ⟨some { ms with ready := true, bs := some bs }, tr, s⟩

/-- `(m *manager) Update`: `if m.cancel != nil { m.cancel(); m.bs = nil }`
then `m.Add(ctx, in)`. The cancel of the prior generation's scope is the
first event of the trace. -/
def Update (env : AddEnv) (ms : ManagerState) (_oldInput newInput : DataSource)
    (s : MState) : AddResult :=
  let (ms, pre) :=
    if ms.hasCancel then ({ ms with bs := none }, [MEvent.cancelPrior])
    else (ms, ([] : List MEvent))
  let r := Add env ms newInput s
  { r with trace := pre ++ r.trace }

/-! ## Concrete fixtures used by evaluation theorems and witnesses -/

/-- A runtime whose RPCs all fail (never consulted on uuid checks). -/
def rtDummy : Runtime :=
  { registerSchemaReply := fun _ _ _ => .err,
    loadProgramReply := fun _ _ _ => .err,
    executeReply := fun _ _ _ => .errOther }

/-- A runtime that echoes every correlation id and replies with a fixed
fingerprint. -/
def rtEcho : Runtime :=
  { registerSchemaReply := fun _ v _ => .reply v,
    loadProgramReply := fun _ v _ => .reply v "sha1",
    executeReply := fun _ v _ => .ok v }

/-- A runtime replying with a wrong correlation id on every RPC. -/
def rtBadUuid : Runtime :=
  { registerSchemaReply := fun _ v _ => .reply (v + 1),
    loadProgramReply := fun _ v _ => .reply (v + 1) "sha1",
    executeReply := fun _ v _ => .ok (v + 1) }

/-- A runtime answering NotFound on the first two execution calls and
echoing success on the third, with program registration always echoing. -/
def rtRetryTwice : Runtime :=
  { registerSchemaReply := fun _ v _ => .reply v,
    loadProgramReply := fun _ v _ => .reply v "sha1",
    executeReply := fun i v _ => if i ≤ 1 then .notFound else .ok v }

/-- A runtime answering NotFound on every execution call. -/
def rtNeverFound : Runtime :=
  { registerSchemaReply := fun _ v _ => .reply v,
    loadProgramReply := fun _ v _ => .reply v "sha1",
    executeReply := fun _ _ _ => .notFound }

def ftW : Feature :=
  { kind := "streaming", fqn := "ns.f1", schema := "http://example.com/s#v",
    expression := "expr", programSha1 := "" }

def msgW : Message := { body := "payload", metadata := [], nackable := true }

def mdW : Metadata := { id := "m1", timestamp := 7, topic := "topic" }

def refW : ResourceReference := { name := "f1", namespc := "ns" }

def bW : URL := { scheme := "http", host := "example.com", path := "/schema", fragment := "v" }

/-- A metadata store whose every lookup fails. -/
def storeNone : ResourceReference → Option FeatureSpecObj := fun _ => none

/-- A store yielding a streaming feature with an empty schema. -/
def storeEmptySchema : ResourceReference → Option FeatureSpecObj :=
  fun _ => some { builder := .decodable "streaming" "" "expr", fqn := "ns.f1" }

/-- A store yielding a streaming feature with a bare-fragment schema. -/
def storeFragSchema : ResourceReference → Option FeatureSpecObj :=
  fun _ => some { builder := .decodable "streaming" "frag" "expr", fqn := "ns.f1" }

/-! ## Claims -/

/-- C1: the claim says a feature whose fetch fails is skipped, so the
resolved list contains only successfully resolved features. The code
appends the returned (nil) feature pointer even when `getFeature` errored:
for a source with one reference whose store fetch fails, `getFeature`
returns a fetch error with a nil feature, and `getFeatureDefinitions`
still produces a one-element list holding that nil placeholder. -/
theorem C1_failed_feature_placeholder_appended :
    getFeature storeNone rtDummy refW none st0 =
      (.ret none (some .fetchFailed), st0) ∧
    getFeatureDefinitions storeNone rtDummy [refW] "ns" none st0 =
      (some [none], st0) := by
  exact ⟨rfl, rfl⟩

/-- C2: the claim says a message whose pipeline run fails is
negatively-acknowledged and not acknowledged, with acknowledgement only on
success. In the code `msg.Ack()` stands after (outside) the error branch,
so a failed message is first Nacked and then Acked anyway: on a concrete
nackable message whose execution fails, the recorded outcome has both
`nacked` and `acked` set. -/
theorem C2_ack_despite_pipeline_failure :
    (handleList rtDummy "src" msgW mdW [some ftW] st0).1 = .err .execFailedOther ∧
    (processMessage rtDummy "src" msgW mdW [some ftW] st0).1 =
      some { nacked := true, acked := true } := by
  exact ⟨rfl, rfl⟩

/-- C3: the claim says encoding a message's metadata into the `headers`
extension and decoding it back yields the original key/value set. The code
calls `u.Query().Add(k, v)`, mutating a fresh copy of the (empty) query
that is immediately discarded, so the encoded extension is always the empty
string and decodes to the empty set — losing every nonempty metadata map,
e.g. `{a: b}`. -/
theorem C3_headers_roundtrip_loses_metadata :
    (∀ metadata, encodeHeaders metadata = "") ∧
    parseQuery (encodeHeaders [("a", "b")]) = [] ∧
    [("a", "b")] ≠ ([] : List (String × String)) := by
  refine ⟨?_, rfl, by decide⟩
  intro metadata
  induction metadata with
  | nil => rfl
  | cons a t ih => exact ih

/-- C8: a create/update notification whose source kind is not "streaming"
is rejected up front: the controller emits no construction events (in
particular no broker subscription) and leaves readiness false, the rest of
the manager state untouched. -/
theorem C8_non_streaming_kind_ignored (env : AddEnv) (ms : ManagerState)
    (input : DataSource) (s : MState) (h : input.kind ≠ "streaming") :
    (Add env ms input s).trace = [] ∧
    MEvent.subscribeCall ∉ (Add env ms input s).trace ∧
    (Add env ms input s).state = some { ms with ready := false } := by
  simp [Add, h]

/-- C8 witness: a concrete non-streaming notification. -/
theorem C8_non_streaming_kind_ignored_witness :
    (Add { unmarshalResult := some ("kafka", 1, none), brokerExists := fun _ => true,
           subscribeOk := true, store := storeNone, rt := rtDummy }
        { ready := true, hasCancel := false, bs := none }
        { kind := "batch", namespc := "ns", name := "n", featureRefs := [] } st0).trace = [] ∧
    MEvent.subscribeCall ∉
      (Add { unmarshalResult := some ("kafka", 1, none), brokerExists := fun _ => true,
             subscribeOk := true, store := storeNone, rt := rtDummy }
          { ready := true, hasCancel := false, bs := none }
          { kind := "batch", namespc := "ns", name := "n", featureRefs := [] } st0).trace ∧
    (Add { unmarshalResult := some ("kafka", 1, none), brokerExists := fun _ => true,
           subscribeOk := true, store := storeNone, rt := rtDummy }
        { ready := true, hasCancel := false, bs := none }
        { kind := "batch", namespc := "ns", name := "n", featureRefs := [] } st0).state =
      some { ready := false, hasCancel := false, bs := none } := by
  exact C8_non_streaming_kind_ignored _ _ _ _ (by decide)

/-- Helper: with a defined source schema, the schema-resolution ladder of
`getFeature` never reaches the nil-dereference branch. -/
theorem resolveFtSchema_some_ne_panic (rt : Runtime) (b : URL) (str : String)
    (s : MState) :
    (resolveFtSchema rt (some b) str s).1 ≠ .panicNilSchema := by
  unfold resolveFtSchema
  repeat' split
  all_goals simp_all

/-- C10: resolving a feature whose schema is empty or not fully qualified
dereferences the source schema URL, so `getFeature` is panic-free whenever
the source defined a schema; with no source schema, the nil-dereference
branch is reached both for an empty feature schema and for a bare-fragment
one. -/
theorem C10_nil_source_schema_panic :
    (∀ store rt ref b s, (getFeature store rt ref (some b) s).1 ≠ .panicNilSchema) ∧
    (getFeature storeEmptySchema rtDummy refW none st0).1 = .panicNilSchema ∧
    (getFeature storeFragSchema rtDummy refW none st0).1 = .panicNilSchema := by
  refine ⟨?_, rfl, rfl⟩
  intro store rt ref b s
  unfold getFeature
  split
  · simp
  rename_i spec heq1
  split
  · simp
  rename_i kind schemaStr expr heq2
  split
  · simp
  split
  · rename_i s' heq
    have h := resolveFtSchema_some_ne_panic rt b schemaStr s
    rw [heq] at h
    exact absurd rfl h
  · simp
  · rename_i resolved s' heq
    dsimp only
    split <;> simp

/-- C6: schema resolution per resolved feature. (a) An empty feature
schema yields exactly the source's schema URI, with no extra registration.
(b) A feature schema that does not parse into a fully-qualified URI
(missing scheme, host or fragment) yields the source schema with the
feature value substituted as its fragment — hence sharing the source's
scheme and host — with no extra registration. (c) A fully-qualified
feature schema whose scheme+host differ from the source's is used
verbatim and triggers exactly one additional remote schema registration. -/
theorem C6_schema_resolution :
    (∀ rt b s, resolveFtSchema rt (some b) "" s = (.ok (URL.toString b), s))
  ∧ (∀ rt b s str u, str ≠ "" → parseURL str = some u →
      (u.scheme = "" ∨ u.host = "" ∨ u.fragment = "") →
      resolveFtSchema rt (some b) str s =
          (.ok (URL.toString { b with fragment := str }), s)
        ∧ ({ b with fragment := str } : URL).scheme = b.scheme
        ∧ ({ b with fragment := str } : URL).host = b.host
        ∧ ({ b with fragment := str } : URL).fragment = str)
  ∧ (∀ rt b s str u, str ≠ "" → parseURL str = some u →
      u.scheme ≠ "" → u.host ≠ "" → u.fragment ≠ "" →
      ¬(u.scheme = b.scheme ∧ u.host = b.host) →
      rt.registerSchemaReply s.schemaCalls s.nextUuid str = .reply s.nextUuid →
      (resolveFtSchema rt (some b) str s).1 = .ok str
        ∧ (resolveFtSchema rt (some b) str s).2.schemaCalls = s.schemaCalls + 1) := by
  refine ⟨?_, ?_, ?_⟩
  · intro rt b s
    simp [resolveFtSchema]
  · intro rt b s str u hne hp hmiss
    rcases hmiss with h | h | h <;>
      simp [resolveFtSchema, hne, hp, h]
  · intro rt b s str u hne hp hs hh hf hdiff hecho
    simp [resolveFtSchema, registerSchema, newUUID, hne, hp, hs, hh, hf, hdiff, hecho]

/-- C6 witness: concrete instances of the three cases against the echoing
runtime and the source schema `http://example.com/schema#v`. -/
theorem C6_schema_resolution_witness :
    resolveFtSchema rtEcho (some bW) "" st0 = (.ok (URL.toString bW), st0)
  ∧ (resolveFtSchema rtEcho (some bW) "frag" st0 =
        (.ok (URL.toString { bW with fragment := "frag" }), st0)
      ∧ ({ bW with fragment := "frag" } : URL).scheme = bW.scheme
      ∧ ({ bW with fragment := "frag" } : URL).host = bW.host
      ∧ ({ bW with fragment := "frag" } : URL).fragment = "frag")
  ∧ ((resolveFtSchema rtEcho (some bW) "https://other.com/x#y" st0).1 =
        .ok "https://other.com/x#y"
      ∧ (resolveFtSchema rtEcho (some bW) "https://other.com/x#y" st0).2.schemaCalls =
        st0.schemaCalls + 1) := by
  refine ⟨C6_schema_resolution.1 rtEcho bW st0, ?_, ?_⟩
  · exact C6_schema_resolution.2.1 rtEcho bW st0 "frag"
      { scheme := "", host := "", path := "frag", fragment := "" }
      (by decide) (by rfl) (by left; rfl)
  · exact C6_schema_resolution.2.2 rtEcho bW st0 "https://other.com/x#y"
      { scheme := "https", host := "other.com", path := "/x", fragment := "y" }
      (by decide) (by rfl) (by decide) (by decide) (by decide) (by decide) (by rfl)

/-- C7: on each of the three RPC exchanges — schema registration, program
registration, program execution — a reply whose correlation id differs from
the freshly generated request id makes the operation return its
uuid-mismatch error instead of succeeding, and those errors form the
distinguished protocol-violation class. -/
theorem C7_uuid_mismatch_is_protocol_error :
    (∀ rt s schema r, rt.registerSchemaReply s.schemaCalls s.nextUuid schema = .reply r →
      r ≠ s.nextUuid →
      (registerSchema rt s schema).1 = .error .schemaRegUnexpectedUuid)
  ∧ (∀ rt s ft r sha, rt.loadProgramReply s.programCalls s.nextUuid ft.expression =
        .reply r sha → r ≠ s.nextUuid →
      (registerProgram rt s ft).1 = .error .programRegUnexpectedUuid)
  ∧ (∀ rt u sha ft triesLeft s r, rt.executeReply s.execCalls u sha = .ok r → r ≠ u →
      (execLoop rt u sha ft triesLeft s).1 = .error .execUnexpectedUuid)
  ∧ (∀ e : GoError, e.isProtocolViolation = true ↔
      (e = .schemaRegUnexpectedUuid ∨ e = .programRegUnexpectedUuid ∨
        e = .execUnexpectedUuid)) := by
  refine ⟨?_, ?_, ?_, ?_⟩
  · intro rt s schema r hr hne
    simp [registerSchema, newUUID, hr, hne]
  · intro rt s ft r sha hr hne
    simp [registerProgram, newUUID, hr, hne]
  · intro rt u sha ft triesLeft s r hr hne
    cases triesLeft <;> simp [execLoop, hr, hne]
  · intro e
    cases e <;> simp [GoError.isProtocolViolation]

/-- C7 witness: against a runtime replying with `request id + 1`
everywhere, all three operations report their uuid-mismatch error. -/
theorem C7_uuid_mismatch_witness :
    (registerSchema rtBadUuid st0 "http://example.com/s").1 =
      .error .schemaRegUnexpectedUuid
  ∧ (registerProgram rtBadUuid st0 ftW).1 = .error .programRegUnexpectedUuid
  ∧ (execLoop rtBadUuid 0 "" ftW 2 st0).1 = .error .execUnexpectedUuid := by
  exact ⟨C7_uuid_mismatch_is_protocol_error.1 rtBadUuid st0 "http://example.com/s" 1
      rfl (by decide),
    C7_uuid_mismatch_is_protocol_error.2.1 rtBadUuid st0 ftW 1 "sha1" rfl (by decide),
    C7_uuid_mismatch_is_protocol_error.2.2.1 rtBadUuid 0 "" ftW 2 st0 1 rfl (by decide)⟩

/-- C9: an Update notification arriving while a generation is active
(`m.cancel != nil`) first cancels the prior generation's scope and only
then runs `Add`; in the resulting event trace every subscription
construction is strictly preceded by the cancellation of the prior
generation's scope. -/
theorem C9_cancel_precedes_new_generation (env : AddEnv) (ms : ManagerState)
    (oldIn newIn : DataSource) (s : MState) (h : ms.hasCancel = true) :
    ∀ j, (Update env ms oldIn newIn s).trace.get? j = some MEvent.subscribeCall →
      ∃ i, i < j ∧ (Update env ms oldIn newIn s).trace.get? i = some MEvent.cancelPrior := by
  intro j hj
  have htr : (Update env ms oldIn newIn s).trace =
      MEvent.cancelPrior :: (Add env { ms with bs := none } newIn s).trace := by
    simp [Update, h]
  rw [htr] at hj
  cases j with
  | zero => simp at hj
  | succ k => exact ⟨0, Nat.succ_pos k, by rw [htr]; rfl⟩

/-- C9 witness: a concrete active-generation Update whose new generation
does subscribe (the subscribe event sits at index 1, the cancel at 0). -/
theorem C9_cancel_precedes_new_generation_witness :
    ∃ i, i < 1 ∧
      (Update { unmarshalResult := some ("kafka", 0, none),
                brokerExists := fun _ => true, subscribeOk := true,
                store := storeNone, rt := rtEcho }
          { ready := true, hasCancel := true, bs := none }
          { kind := "streaming", namespc := "ns", name := "n", featureRefs := [] }
          { kind := "streaming", namespc := "ns", name := "n", featureRefs := [] }
          st0).trace.get? i = some MEvent.cancelPrior := by
  exact C9_cancel_precedes_new_generation _ _ _ _ _ rfl 1 rfl

/-- C4: when the runtime answers NotFound on the first two execution calls
and echoes success on the third, with program re-registration echoing, the
pipeline succeeds for that feature after exactly 3 execution calls (hence
no more than 3) and exactly 2 program re-registration calls. -/
theorem C4_notfound_twice_then_success (rt : Runtime) (src : String) (msg : Message)
    (md : Metadata) (ft : Feature) (sha : String) (s : MState)
    (hp : ∀ i v p, rt.loadProgramReply i v p = .reply v sha)
    (h1 : rt.executeReply s.execCalls s.nextUuid ft.programSha1 = .notFound)
    (h2 : rt.executeReply (s.execCalls + 1) s.nextUuid ft.programSha1 = .notFound)
    (h3 : rt.executeReply (s.execCalls + 1 + 1) s.nextUuid ft.programSha1 =
      .ok s.nextUuid) :
    (handleList rt src msg md [some ft] s).1 = .ok ∧
    (handleList rt src msg md [some ft] s).2.execCalls = s.execCalls + 3 ∧
    (handleList rt src msg md [some ft] s).2.programCalls = s.programCalls + 2 := by
  refine ⟨?_, ?_, ?_⟩ <;>
    simp [handleList, execLoop, registerProgram, newUUID, h1, h2, h3, hp]

/-- C4 witness: the runtime that answers NotFound on execution calls 0 and
1 and echoes on call 2, starting from the initial counters. -/
theorem C4_notfound_twice_then_success_witness :
    (handleList rtRetryTwice "src" msgW mdW [some ftW] st0).1 = .ok ∧
    (handleList rtRetryTwice "src" msgW mdW [some ftW] st0).2.execCalls =
      st0.execCalls + 3 ∧
    (handleList rtRetryTwice "src" msgW mdW [some ftW] st0).2.programCalls =
      st0.programCalls + 2 := by
  exact C4_notfound_twice_then_success rtRetryTwice "src" msgW mdW ftW "sha1" st0
    (fun _ _ _ => rfl) rfl rfl rfl

/-- C5: when the runtime answers NotFound on all three execution calls
(program re-registration echoing each time), the pipeline fails the whole
message with the execution error and stops after exactly 3 execution calls
— it neither succeeds nor retries a fourth time. -/
theorem C5_notfound_exhaustion_fails (rt : Runtime) (src : String) (msg : Message)
    (md : Metadata) (ft : Feature) (sha : String) (s : MState)
    (hp : ∀ i v p, rt.loadProgramReply i v p = .reply v sha)
    (h1 : rt.executeReply s.execCalls s.nextUuid ft.programSha1 = .notFound)
    (h2 : rt.executeReply (s.execCalls + 1) s.nextUuid ft.programSha1 = .notFound)
    (h3 : rt.executeReply (s.execCalls + 1 + 1) s.nextUuid ft.programSha1 = .notFound) :
    (handleList rt src msg md [some ft] s).1 = .err .execFailedNotFound ∧
    (handleList rt src msg md [some ft] s).2.execCalls = s.execCalls + 3 := by
  refine ⟨?_, ?_⟩ <;>
    simp [handleList, execLoop, registerProgram, newUUID, h1, h2, h3, hp]

/-- C5 witness: the always-NotFound runtime from the initial counters. -/
theorem C5_notfound_exhaustion_fails_witness :
    (handleList rtNeverFound "src" msgW mdW [some ftW] st0).1 =
      .err .execFailedNotFound ∧
    (handleList rtNeverFound "src" msgW mdW [some ftW] st0).2.execCalls =
      st0.execCalls + 3 := by
  exact C5_notfound_exhaustion_fails rtNeverFound "src" msgW mdW ftW "sha1" st0
    (fun _ _ _ => rfl) rfl rfl rfl

end StreamingRunner
